import Mathlib

/-!
Shallow embedding of the ART optimizing-compiler orchestrator
(`src/compiler/optimizing/optimizing_compiler.cc`).

The file models the orchestration logic of `OptimizingCompiler::Compile`
faithfully, line by line: the statistics increments, the instruction-set
fixup and support gate, the pathological-case gate, the graph build and
code-generator creation with their `CHECK(!shouldCompile)` valves, the
path decision, the fixed optimization sequence of `RunOptimizations`, the
`LOG(FATAL)` register-allocation valve, and both artifact constructions.

External collaborators (graph builder, optimization-pass internals,
register allocator, code generator) are not part of the source file; they
are modelled as opaque functions collected in an `Externals` environment,
typed according to their call signatures in the source and their
contracts in the design document.
-/

namespace art

/-- The ART instruction-set enumeration (the members this file mentions,
plus `kMips` as a representative unsupported set). -/
inductive InstructionSet where
  | kNone
  | kArm
  | kArm64
  | kThumb2
  | kX86
  | kX86_64
  | kMips
deriving DecidableEq, Repr

open InstructionSet

/-- `IsInstructionSetSupported` (optimizing_compiler.cc:181-186).
`kArm32QuickCodeUseSoftFloat` is a build-configuration constant defined
outside this file, so it is passed as a parameter. -/
def IsInstructionSetSupported (kArm32QuickCodeUseSoftFloat : Bool)
    (instruction_set : InstructionSet) : Bool :=
  instruction_set == kArm64
    || (instruction_set == kThumb2 && !kArm32QuickCodeUseSoftFloat)
    || instruction_set == kX86
    || instruction_set == kX86_64

/-- The fields of `DexFile::CodeItem` the orchestrator reads. -/
structure CodeItem where
  tries_size_ : Nat
deriving DecidableEq

/-- `CanOptimize` (optimizing_compiler.cc:188-191): methods with
try/catch regions cannot be optimized. -/
def CanOptimize (code_item : CodeItem) : Bool :=
  code_item.tries_size_ == 0

/-- Substring search on character lists, modelling
`std::string::find(pat) != std::string::npos`. -/
def charListContains : List Char → List Char → Bool
  | [], pat => pat.isEmpty
  | c :: cs, pat => List.isPrefixOf pat (c :: cs) || charListContains cs pat

/-- `symbol.find(pat) != std::string::npos` on Lean strings. -/
def strContains (s pat : String) : Bool :=
  charListContains s.data pat.data

/-- Marker on method names that must compile with this compiler
(optimizing_compiler.cc:244). -/
def optMarker : String := "00024opt_00024"

/-- Marker on method names that must allocate registers
(optimizing_compiler.cc:246). -/
def regMarker : String := "00024reg_00024"

/-- Per-compilation control-flow graph. Its internal structure is owned
by external collaborators; the orchestrator only threads it through
transformation calls, so an opaque token suffices. -/
structure HGraph where
  gid : Nat
deriving DecidableEq

/-- Per-compilation code-generator state (the `CodeGenerator` object):
mutated by emission, queried by the metadata-table builders. -/
structure CGState where
  sid : Nat
deriving DecidableEq

/-- Result of `SsaLivenessAnalysis` (external); the orchestrator only
passes it to the register allocator or discards it. -/
structure Liveness where
  lid : Nat
deriving DecidableEq

/-- The seven optimization-pass classes instantiated by
`RunOptimizations` (optimizing_compiler.cc:194-200). -/
inductive OptPass where
  | HDeadCodeElimination
  | HConstantFolding
  | SsaRedundantPhiElimination
  | SsaDeadPhiElimination
  | InstructionSimplifier
  | GlobalValueNumberer
deriving DecidableEq, Repr

/-- Observable events of the optimization loop: each pass's `Run`,
`Check`, and the visualizer dump (optimizing_compiler.cc:204-209). -/
inductive PassEvent where
  | run : OptPass → PassEvent
  | check : OptPass → PassEvent
  | dump : OptPass → PassEvent
deriving DecidableEq, Repr

/-- Observable metadata-table construction calls on the code generator. -/
inductive BuildEvent where
  | mappingTable (withSrcMap : Bool)
  | stackMaps
  | vmapTable
  | nativeGCMap
deriving DecidableEq, Repr

/-- The ways `Compile` can terminate the process fatally. -/
inductive FatalKind where
  | graphBuildFailed
  | noCodeGenerator
  | registerAllocationValve
  | optimizationCheckFailed
deriving DecidableEq, Repr

/-- The `CompiledMethod` artifact: two layouts built by the two
constructor calls in `Compile` (optimizing_compiler.cc:301-308 and
340-350). -/
inductive CompiledMethod where
  | optimized (instruction_set : InstructionSet) (code : List Nat)
      (frame_size : Nat) (core_spill_mask : Nat) (fp_spill_mask : Nat)
      (mapping_table : List Nat) (stack_map : List Nat)
  | baseline (instruction_set : InstructionSet) (code : List Nat)
      (frame_size : Nat) (core_spill_mask : Nat) (fp_spill_mask : Nat)
      (src_mapping_table : Bool) (mapping_table : List Nat)
      (vmap_table : List Nat) (gc_map : List Nat)
deriving DecidableEq, Repr

/-- The floating-point spill-mask field of either layout. -/
def CompiledMethod.fpSpillMask : CompiledMethod → Nat
  | .optimized _ _ _ _ fp _ _ => fp
  | .baseline _ _ _ _ fp _ _ _ _ => fp

/-- Whether the artifact has the baseline layout. -/
def CompiledMethod.isBaseline : CompiledMethod → Bool
  | .baseline .. => true
  | .optimized .. => false

/-- Whether the artifact has the optimized layout. -/
def CompiledMethod.isOptimized : CompiledMethod → Bool
  | .baseline .. => false
  | .optimized .. => true

/-- Result of one `Compile` call: a fatal abort, the `nullptr` sentinel,
or an artifact. -/
inductive Outcome where
  | fatal : FatalKind → Outcome
  | noMethod : Outcome
  | method : CompiledMethod → Outcome
deriving DecidableEq, Repr

def Outcome.isFatal : Outcome → Bool
  | .fatal _ => true
  | _ => false

def Outcome.isMethod : Outcome → Bool
  | .method _ => true
  | _ => false

def Outcome.isOptimizedMethod : Outcome → Bool
  | .method m => m.isOptimized
  | _ => false

def Outcome.isBaselineMethod : Outcome → Bool
  | .method m => m.isBaseline
  | _ => false

/-- The three statistics counters of `OptimizingCompiler`
(optimizing_compiler.cc:122-124). -/
structure Stats where
  total_compiled_methods_ : Nat
  unoptimized_compiled_methods_ : Nat
  optimized_compiled_methods_ : Nat
deriving DecidableEq, Repr

def initialStats : Stats := ⟨0, 0, 0⟩

/-- The external collaborators and configuration of one `Compile` call.
Each field corresponds to one external function or flag referenced by
the source; its type follows the call signature there. -/
structure Externals where
  kArm32QuickCodeUseSoftFloat : Bool
  driverInstructionSet : InstructionSet
  run_optimizations_ : Bool
  includeDebugSymbols : Bool
  isPathological : Bool
  buildGraph : Option HGraph
  createCodegen : HGraph → InstructionSet → Option CGState
  canAllocateRegistersFor : HGraph → InstructionSet → Bool
  raSupports : InstructionSet → Bool
  buildDominatorTree : HGraph → HGraph
  transformToSSA : HGraph → HGraph
  findNaturalLoops : HGraph → HGraph
  passRun : OptPass → HGraph → HGraph
  passCheck : OptPass → HGraph → Bool
  prepareForRegisterAllocation : HGraph → HGraph
  livenessAnalyze : HGraph → CGState → Liveness
  allocateRegisters : HGraph → CGState → Liveness → HGraph
  compileOptimized : CGState → HGraph → CGState × List Nat
  compileBaseline : CGState → HGraph → CGState × List Nat
  buildMappingTable : CGState → Bool → List Nat
  buildStackMaps : CGState → List Nat
  buildVMapTable : CGState → List Nat
  buildNativeGCMap : CGState → List Nat
  getFrameSize : CGState → Nat
  getCoreSpillMask : CGState → Nat

/-- Per-call inputs the orchestrator inspects: the method's code item
and its identifying symbol (`dex_compilation_unit.GetSymbol()`). -/
structure MethodInput where
  code_item : CodeItem
  symbol : String
deriving DecidableEq

/-- Everything one `Compile` call returns or observably does: the
outcome, the updated counters, the metadata-table calls, and the
optimization-pass events. -/
structure CompileResult where
  outcome : Outcome
  stats : Stats
  tableEvents : List BuildEvent
  passEvents : List PassEvent
deriving DecidableEq

/-- The instruction-set fixup at optimizing_compiler.cc:221-226: the
driver's set, with `kArm` replaced by `kThumb2`. -/
def effectiveInstructionSet (env : Externals) : InstructionSet :=
  if env.driverInstructionSet = kArm then kThumb2 else env.driverInstructionSet

/-- The pass list of `RunOptimizations` (optimizing_compiler.cc:194-202):
dead-code elimination, constant folding, redundant-phi elimination,
dead-phi elimination, instruction simplification, global value
numbering, instruction simplification again. -/
def optimizations : List OptPass :=
  [.HDeadCodeElimination, .HConstantFolding, .SsaRedundantPhiElimination,
   .SsaDeadPhiElimination, .InstructionSimplifier, .GlobalValueNumberer,
   .InstructionSimplifier]

/-- The loop body of `RunOptimizations` (optimizing_compiler.cc:204-209):
for each pass in order, `Run`, then `Check` (fatal on failure), then the
visualizer dump. Returns `none` when a `Check` fails. -/
def runOptsAux (env : Externals) :
    List OptPass → HGraph → List PassEvent → Option HGraph × List PassEvent
  | [], g, tr => (some g, tr)
  | p :: ps, g, tr =>
    let g1 := env.passRun p g
    if env.passCheck p g1 then
      runOptsAux env ps g1 (tr ++ [PassEvent.run p, PassEvent.check p, PassEvent.dump p])
    else
      (none, tr ++ [PassEvent.run p, PassEvent.check p])

/-- `RunOptimizations` (optimizing_compiler.cc:193-210). -/
def RunOptimizations (env : Externals) (g : HGraph) :
    Option HGraph × List PassEvent :=
  runOptsAux env optimizations g []

/-- The optimized path (optimizing_compiler.cc:273-308), entered with the
built graph, the created code generator and the already-incremented
statistics. -/
def optimizedBranch (env : Externals) (st : Stats) (graph : HGraph)
    (codegen : CGState) (instruction_set : InstructionSet) : CompileResult :=
  let st := { st with
    optimized_compiled_methods_ := st.optimized_compiled_methods_ + 1 }
  let graph := env.buildDominatorTree graph
  let graph := env.transformToSSA graph
  let graph := env.findNaturalLoops graph
  match RunOptimizations env graph with
  | (none, tr) =>
    { outcome := .fatal .optimizationCheckFailed, stats := st,
      tableEvents := [], passEvents := tr }
  | (some graph, tr) =>
    let graph := env.prepareForRegisterAllocation graph
    let liveness := env.livenessAnalyze graph codegen
    let graph := env.allocateRegisters graph codegen liveness
    let (codegen, code) := env.compileOptimized codegen graph
    let mapping_table := env.buildMappingTable codegen env.includeDebugSymbols
    let stack_map := env.buildStackMaps codegen
    { outcome := .method (.optimized instruction_set code
        (env.getFrameSize codegen) (env.getCoreSpillMask codegen) 0
        mapping_table stack_map),
      stats := st,
      tableEvents := [.mappingTable env.includeDebugSymbols, .stackMaps],
      passEvents := tr }

/-- The baseline path (optimizing_compiler.cc:312-350): baseline code
emission, then — when the method has no try/catch regions — the
coverage-only side computation (dominator tree, SSA, natural loops, phi
eliminations, GVN, liveness) whose results are discarded, then the
baseline metadata tables and artifact. -/
def baselineBranch (env : Externals) (m : MethodInput) (graph : HGraph)
    (codegen : CGState) (instruction_set : InstructionSet) :
    CompiledMethod × List BuildEvent :=
  let (codegen, code) := env.compileBaseline codegen graph
  let _coverage : Option HGraph :=
    if CanOptimize m.code_item then
      let g := env.buildDominatorTree graph
      let g := env.transformToSSA g
      let g := env.findNaturalLoops g
      let g := env.passRun .SsaRedundantPhiElimination g
      let g := env.passRun .SsaDeadPhiElimination g
      let g := env.passRun .GlobalValueNumberer g
      let _liveness := env.livenessAnalyze g codegen
      some g
    else
      none
  let mapping_table := env.buildMappingTable codegen env.includeDebugSymbols
  let vmap_table := env.buildVMapTable codegen
  let gc_map := env.buildNativeGCMap codegen
  (.baseline instruction_set code (env.getFrameSize codegen)
     (env.getCoreSpillMask codegen) 0 env.includeDebugSymbols
     mapping_table vmap_table gc_map,
   [.mappingTable env.includeDebugSymbols, .vmapTable, .nativeGCMap])

/-- Modelled from the spec: a baseline compilation that skips the
coverage-only side computation entirely (the dominance/SSA/GVN/liveness
analyses run "purely to exercise that code for test coverage" whose
"outputs must be discarded"), for comparison with `baselineBranch`. -/
def baselineBranchNoCoverage (env : Externals) (graph : HGraph)
    (codegen : CGState) (instruction_set : InstructionSet) :
    CompiledMethod × List BuildEvent :=
  let (codegen, code) := env.compileBaseline codegen graph
  let mapping_table := env.buildMappingTable codegen env.includeDebugSymbols
  let vmap_table := env.buildVMapTable codegen
  let gc_map := env.buildNativeGCMap codegen
  (.baseline instruction_set code (env.getFrameSize codegen)
     (env.getCoreSpillMask codegen) 0 env.includeDebugSymbols
     mapping_table vmap_table gc_map,
   [.mappingTable env.includeDebugSymbols, .vmapTable, .nativeGCMap])

/-- `OptimizingCompiler::Compile` (optimizing_compiler.cc:212-352). -/
def Compile (env : Externals) (m : MethodInput) (st : Stats) : CompileResult :=
  let st1 : Stats := { st with
    total_compiled_methods_ := st.total_compiled_methods_ + 1 }
  let instruction_set := effectiveInstructionSet env
  if IsInstructionSetSupported env.kArm32QuickCodeUseSoftFloat instruction_set
      = false then
    { outcome := .noMethod, stats := st1, tableEvents := [], passEvents := [] }
  else if env.isPathological then
    { outcome := .noMethod, stats := st1, tableEvents := [], passEvents := [] }
  else
    let shouldCompile := strContains m.symbol optMarker
    let shouldOptimize := strContains m.symbol regMarker
    match env.buildGraph with
    | none =>
      if shouldCompile then
        { outcome := .fatal .graphBuildFailed, stats := st1,
          tableEvents := [], passEvents := [] }
      else
        { outcome := .noMethod, stats := st1, tableEvents := [], passEvents := [] }
    | some graph =>
      match env.createCodegen graph instruction_set with
      | none =>
        if shouldCompile then
          { outcome := .fatal .noCodeGenerator, stats := st1,
            tableEvents := [], passEvents := [] }
        else
          { outcome := .noMethod, stats := st1, tableEvents := [], passEvents := [] }
      | some codegen =>
        if env.run_optimizations_ && CanOptimize m.code_item
            && env.canAllocateRegistersFor graph instruction_set then
          optimizedBranch env st1 graph codegen instruction_set
        else if shouldOptimize && env.raSupports instruction_set then
          { outcome := .fatal .registerAllocationValve, stats := st1,
            tableEvents := [], passEvents := [] }
        else
          let st2 : Stats := { st1 with
            unoptimized_compiled_methods_ := st1.unoptimized_compiled_methods_ + 1 }
          let (art_method, events) := baselineBranch env m graph codegen instruction_set
          { outcome := .method art_method, stats := st2,
            tableEvents := events, passEvents := [] }

/-- The condition of the optimized-path branch
(optimizing_compiler.cc:270-272): global optimization policy on, no
try/catch regions, and the register allocator's allocability predicate
true on the built graph. -/
def optCond (env : Externals) (m : MethodInput) (g : HGraph) : Bool :=
  env.run_optimizations_ && CanOptimize m.code_item
    && env.canAllocateRegistersFor g (effectiveInstructionSet env)

/-- The condition of the fatal testing valve
(optimizing_compiler.cc:309): the method carries the
register-allocation marker and `RegisterAllocator::Supports` holds. -/
def valveCond (env : Externals) (m : MethodInput) : Bool :=
  strContains m.symbol regMarker && env.raSupports (effectiveInstructionSet env)

/-- The interleaved event sequence of the seven-pass optimization loop:
for each pass in order, `Run`, `Check`, visualizer dump. -/
def optSequenceTrace : List PassEvent :=
  [.run .HDeadCodeElimination, .check .HDeadCodeElimination, .dump .HDeadCodeElimination,
   .run .HConstantFolding, .check .HConstantFolding, .dump .HConstantFolding,
   .run .SsaRedundantPhiElimination, .check .SsaRedundantPhiElimination,
   .dump .SsaRedundantPhiElimination,
   .run .SsaDeadPhiElimination, .check .SsaDeadPhiElimination, .dump .SsaDeadPhiElimination,
   .run .InstructionSimplifier, .check .InstructionSimplifier, .dump .InstructionSimplifier,
   .run .GlobalValueNumberer, .check .GlobalValueNumberer, .dump .GlobalValueNumberer,
   .run .InstructionSimplifier, .check .InstructionSimplifier, .dump .InstructionSimplifier]

/-- A process run: a sequence of `Compile` calls threading the shared
statistics counters, collecting each call's outcome. -/
def runCompiles : List (Externals × MethodInput) → Stats → Stats × List Outcome
  | [], st => (st, [])
  | c :: rest, st =>
    let r := Compile c.1 c.2 st
    let t := runCompiles rest r.stats
    (t.1, r.outcome :: t.2)

/-- Number of successful (artifact-returning) outcomes. -/
def countMethods : List Outcome → Nat
  | [] => 0
  | o :: rest => countMethods rest + (if o.isMethod then 1 else 0)

/-- Number of outcomes whose artifact took the optimized branch. -/
def countOptimizedOuts : List Outcome → Nat
  | [] => 0
  | o :: rest => countOptimizedOuts rest + (if o.isOptimizedMethod then 1 else 0)

/-- Number of outcomes whose artifact took the baseline branch. -/
def countBaselineOuts : List Outcome → Nat
  | [] => 0
  | o :: rest => countBaselineOuts rest + (if o.isBaselineMethod then 1 else 0)

/-- A concrete external environment used to evaluate the theorems on
explicit inputs: supported x86 target, optimizations enabled, graph
builds, code generator available, all pass checks succeed. -/
def envW : Externals where
  kArm32QuickCodeUseSoftFloat := false
  driverInstructionSet := .kX86
  run_optimizations_ := true
  includeDebugSymbols := false
  isPathological := false
  buildGraph := some ⟨0⟩
  createCodegen := fun _ _ => some ⟨0⟩
  canAllocateRegistersFor := fun _ _ => true
  raSupports := fun _ => true
  buildDominatorTree := fun g => g
  transformToSSA := fun g => g
  findNaturalLoops := fun g => g
  passRun := fun _ g => g
  passCheck := fun _ _ => true
  prepareForRegisterAllocation := fun g => g
  livenessAnalyze := fun _ _ => ⟨0⟩
  allocateRegisters := fun g _ _ => g
  compileOptimized := fun cg _ => (cg, [1])
  compileBaseline := fun cg _ => (cg, [2])
  buildMappingTable := fun _ _ => [3]
  buildStackMaps := fun _ => [4]
  buildVMapTable := fun _ => [5]
  buildNativeGCMap := fun _ => [6]
  getFrameSize := fun _ => 16
  getCoreSpillMask := fun _ => 1

/-- An untagged method with no try/catch regions. -/
def mW : MethodInput := ⟨⟨0⟩, ""⟩

/-- An untagged method with one try/catch region. -/
def mTries : MethodInput := ⟨⟨1⟩, ""⟩

/-- A method whose symbol carries the register-allocation marker. -/
def mReg : MethodInput := ⟨⟨0⟩, "a00024reg_00024b"⟩

/-- A method whose symbol carries the must-compile marker. -/
def mOpt : MethodInput := ⟨⟨0⟩, "a00024opt_00024b"⟩

/-- `envW` with the global optimization policy disabled. -/
def envNoOpt : Externals := { envW with run_optimizations_ := false }

/-- `envW` targeting an unsupported architecture. -/
def envMips : Externals := { envW with driverInstructionSet := .kMips }

/-- `envW` whose graph build fails. -/
def envNoGraph : Externals := { envW with buildGraph := none }

/-- C2 as stated by the spec: an ineligible (unsupported-architecture)
rejection returns the sentinel and leaves all three statistics counters
unchanged. -/
def ClaimC2Stated : Prop :=
  ∀ (env : Externals) (m : MethodInput) (st : Stats),
    IsInstructionSetSupported env.kArm32QuickCodeUseSoftFloat
      (effectiveInstructionSet env) = false →
    (Compile env m st).outcome = .noMethod ∧ (Compile env m st).stats = st

/-- C3 as stated by the spec: after any non-fatal run, `total` equals
the number of successful compilations, `optimized` the number that took
the optimized branch, and `unoptimized` the difference. -/
def ClaimC3Stated : Prop :=
  ∀ calls : List (Externals × MethodInput),
    (∀ o ∈ (runCompiles calls initialStats).2, o.isFatal = false) →
    (runCompiles calls initialStats).1.total_compiled_methods_ =
        countMethods (runCompiles calls initialStats).2 ∧
    (runCompiles calls initialStats).1.optimized_compiled_methods_ =
        countOptimizedOuts (runCompiles calls initialStats).2 ∧
    (runCompiles calls initialStats).1.unoptimized_compiled_methods_ =
        countMethods (runCompiles calls initialStats).2 -
          countOptimizedOuts (runCompiles calls initialStats).2

/-- C5 as stated by the spec: for a method that reaches the path
decision, the fatal register-allocation valve fires iff the method
carries the register-allocation marker and the allocability predicate
returns false. -/
def ClaimC5Stated : Prop :=
  ∀ (env : Externals) (m : MethodInput) (st : Stats) (g : HGraph) (cg : CGState),
    IsInstructionSetSupported env.kArm32QuickCodeUseSoftFloat
      (effectiveInstructionSet env) = true →
    env.isPathological = false →
    env.buildGraph = some g →
    env.createCodegen g (effectiveInstructionSet env) = some cg →
    ((Compile env m st).outcome = .fatal .registerAllocationValve ↔
      (strContains m.symbol regMarker = true ∧
        env.canAllocateRegistersFor g (effectiveInstructionSet env) = false))

/-- C6 as stated by the spec: every ineligible condition (unsupported
architecture, pathological shape, graph-build failure, missing code
generator) is reported as the null sentinel, never fatally. -/
def ClaimC6Stated : Prop :=
  ∀ (env : Externals) (m : MethodInput) (st : Stats),
    (IsInstructionSetSupported env.kArm32QuickCodeUseSoftFloat
        (effectiveInstructionSet env) = false ∨
      env.isPathological = true ∨
      env.buildGraph = none ∨
      (∃ g, env.buildGraph = some g ∧
        env.createCodegen g (effectiveInstructionSet env) = none)) →
    (Compile env m st).outcome = .noMethod

/-- C9 as stated by the spec: on the optimized path the mapping table is
built iff debug-symbol inclusion is requested. -/
def ClaimC9Stated : Prop :=
  ∀ (env : Externals) (m : MethodInput) (st : Stats),
    (Compile env m st).outcome.isOptimizedMethod = true →
    ((∃ b, BuildEvent.mappingTable b ∈ (Compile env m st).tableEvents) ↔
      env.includeDebugSymbols = true)

/-- Per-call statistics contract of `Compile`: the total counter is
incremented on every call at entry; on a non-fatal call the optimized
and unoptimized counters are incremented exactly when the outcome is an
optimized (resp. baseline) artifact. -/
theorem compile_spec (env : Externals) (m : MethodInput) (st : Stats) :
    (Compile env m st).stats.total_compiled_methods_ =
      st.total_compiled_methods_ + 1 ∧
    ((Compile env m st).outcome.isFatal = false →
      (Compile env m st).stats.optimized_compiled_methods_ =
        st.optimized_compiled_methods_ +
          (if (Compile env m st).outcome.isOptimizedMethod then 1 else 0) ∧
      (Compile env m st).stats.unoptimized_compiled_methods_ =
        st.unoptimized_compiled_methods_ +
          (if (Compile env m st).outcome.isBaselineMethod then 1 else 0)) := by
  unfold Compile optimizedBranch
  dsimp only
  repeat' split
  all_goals
    simp_all [Outcome.isFatal, Outcome.isOptimizedMethod, Outcome.isBaselineMethod,
      CompiledMethod.isOptimized, CompiledMethod.isBaseline, baselineBranch]

/-- `Compile` on an unsupported architecture: sentinel result, only the
total counter is bumped. -/
theorem compile_eq_unsupported (env : Externals) (m : MethodInput) (st : Stats)
    (hsup : IsInstructionSetSupported env.kArm32QuickCodeUseSoftFloat
      (effectiveInstructionSet env) = false) :
    Compile env m st =
      { outcome := .noMethod,
        stats := { st with total_compiled_methods_ := st.total_compiled_methods_ + 1 },
        tableEvents := [], passEvents := [] } := by
  unfold Compile
  dsimp only
  rw [hsup]
  simp

/-- `Compile` on a pathological method: sentinel result. -/
theorem compile_eq_pathological (env : Externals) (m : MethodInput) (st : Stats)
    (hsup : IsInstructionSetSupported env.kArm32QuickCodeUseSoftFloat
      (effectiveInstructionSet env) = true)
    (hpath : env.isPathological = true) :
    Compile env m st =
      { outcome := .noMethod,
        stats := { st with total_compiled_methods_ := st.total_compiled_methods_ + 1 },
        tableEvents := [], passEvents := [] } := by
  unfold Compile
  dsimp only
  rw [hsup, hpath]
  simp

/-- `Compile` when the graph build fails: sentinel result for untagged
methods, fatal `CHECK` for methods carrying the must-compile marker. -/
theorem compile_eq_buildfail (env : Externals) (m : MethodInput) (st : Stats)
    (hsup : IsInstructionSetSupported env.kArm32QuickCodeUseSoftFloat
      (effectiveInstructionSet env) = true)
    (hpath : env.isPathological = false)
    (hg : env.buildGraph = none) :
    Compile env m st =
      { outcome := if strContains m.symbol optMarker then
            .fatal .graphBuildFailed else .noMethod,
        stats := { st with total_compiled_methods_ := st.total_compiled_methods_ + 1 },
        tableEvents := [], passEvents := [] } := by
  unfold Compile
  dsimp only
  rw [hsup, hpath, hg]
  simp
  split <;> simp

/-- `Compile` when no code generator exists for the architecture:
sentinel for untagged methods, fatal `CHECK` for tagged ones. -/
theorem compile_eq_nocodegen (env : Externals) (m : MethodInput) (st : Stats)
    (g : HGraph)
    (hsup : IsInstructionSetSupported env.kArm32QuickCodeUseSoftFloat
      (effectiveInstructionSet env) = true)
    (hpath : env.isPathological = false)
    (hg : env.buildGraph = some g)
    (hcg : env.createCodegen g (effectiveInstructionSet env) = none) :
    Compile env m st =
      { outcome := if strContains m.symbol optMarker then
            .fatal .noCodeGenerator else .noMethod,
        stats := { st with total_compiled_methods_ := st.total_compiled_methods_ + 1 },
        tableEvents := [], passEvents := [] } := by
  unfold Compile
  dsimp only
  rw [hsup, hpath, hg]
  simp [hcg]
  split <;> simp

/-- `Compile` reduces to the optimized branch when the path-decision
condition holds. -/
theorem compile_eq_opt (env : Externals) (m : MethodInput) (st : Stats)
    (g : HGraph) (cg : CGState)
    (hsup : IsInstructionSetSupported env.kArm32QuickCodeUseSoftFloat
      (effectiveInstructionSet env) = true)
    (hpath : env.isPathological = false)
    (hg : env.buildGraph = some g)
    (hcg : env.createCodegen g (effectiveInstructionSet env) = some cg)
    (hc : optCond env m g = true) :
    Compile env m st = optimizedBranch env
      { st with total_compiled_methods_ := st.total_compiled_methods_ + 1 }
      g cg (effectiveInstructionSet env) := by
  unfold Compile
  dsimp only
  repeat' split
  all_goals simp_all [optCond]

/-- `Compile` reduces to the fatal valve when the path-decision
condition fails but the method is reg-tagged on a supported allocator. -/
theorem compile_eq_valve (env : Externals) (m : MethodInput) (st : Stats)
    (g : HGraph) (cg : CGState)
    (hsup : IsInstructionSetSupported env.kArm32QuickCodeUseSoftFloat
      (effectiveInstructionSet env) = true)
    (hpath : env.isPathological = false)
    (hg : env.buildGraph = some g)
    (hcg : env.createCodegen g (effectiveInstructionSet env) = some cg)
    (hc : optCond env m g = false)
    (hv : valveCond env m = true) :
    Compile env m st =
      { outcome := .fatal .registerAllocationValve,
        stats := { st with total_compiled_methods_ := st.total_compiled_methods_ + 1 },
        tableEvents := [], passEvents := [] } := by
  unfold Compile
  dsimp only
  repeat' split
  all_goals simp_all [optCond, valveCond]

/-- `Compile` reduces to the baseline branch otherwise. -/
theorem compile_eq_baseline (env : Externals) (m : MethodInput) (st : Stats)
    (g : HGraph) (cg : CGState)
    (hsup : IsInstructionSetSupported env.kArm32QuickCodeUseSoftFloat
      (effectiveInstructionSet env) = true)
    (hpath : env.isPathological = false)
    (hg : env.buildGraph = some g)
    (hcg : env.createCodegen g (effectiveInstructionSet env) = some cg)
    (hc : optCond env m g = false)
    (hv : valveCond env m = false) :
    Compile env m st =
      { outcome := .method (baselineBranch env m g cg (effectiveInstructionSet env)).1,
        stats := { st with
          total_compiled_methods_ := st.total_compiled_methods_ + 1,
          unoptimized_compiled_methods_ := st.unoptimized_compiled_methods_ + 1 },
        tableEvents := (baselineBranch env m g cg (effectiveInstructionSet env)).2,
        passEvents := [] } := by
  unfold Compile
  dsimp only
  repeat' split
  all_goals simp_all [optCond, valveCond]

/-- The optimized branch increments exactly the optimized counter. -/
theorem optimizedBranch_stats (env : Externals) (st : Stats) (g : HGraph)
    (cg : CGState) (i : InstructionSet) :
    (optimizedBranch env st g cg i).stats =
      { st with optimized_compiled_methods_ := st.optimized_compiled_methods_ + 1 } := by
  unfold optimizedBranch
  dsimp only
  split <;> rfl

/-- The optimized branch never reports the register-allocation valve. -/
theorem optimizedBranch_not_valve (env : Externals) (st : Stats) (g : HGraph)
    (cg : CGState) (i : InstructionSet) :
    (optimizedBranch env st g cg i).outcome ≠ .fatal .registerAllocationValve := by
  unfold optimizedBranch
  dsimp only
  split <;> simp

/-- When every pass check succeeds, `RunOptimizations` applies the seven
passes in order and its trace is the canonical interleaved sequence. -/
theorem runOptimizations_of_checks (env : Externals) (g : HGraph)
    (hchk : ∀ p g', env.passCheck p g' = true) :
    RunOptimizations env g =
      (some (env.passRun .InstructionSimplifier (env.passRun .GlobalValueNumberer
        (env.passRun .InstructionSimplifier (env.passRun .SsaDeadPhiElimination
        (env.passRun .SsaRedundantPhiElimination (env.passRun .HConstantFolding
        (env.passRun .HDeadCodeElimination g))))))),
       optSequenceTrace) := by
  simp [RunOptimizations, runOptsAux, optimizations, optSequenceTrace, hchk]

/-- An artifact has exactly one of the two layouts. -/
theorem isOptimized_eq_not_isBaseline (a : CompiledMethod) :
    a.isOptimized = !a.isBaseline := by
  cases a <;> rfl

/-- Every successful outcome took exactly one of the two branches. -/
theorem countMethods_eq (outs : List Outcome) :
    countMethods outs = countOptimizedOuts outs + countBaselineOuts outs := by
  induction outs with
  | nil => rfl
  | cons o rest ih =>
    simp only [countMethods, countOptimizedOuts, countBaselineOuts]
    rw [ih]
    cases o with
    | fatal k => simp [Outcome.isMethod, Outcome.isOptimizedMethod,
        Outcome.isBaselineMethod]
    | noMethod => simp [Outcome.isMethod, Outcome.isOptimizedMethod,
        Outcome.isBaselineMethod]
    | method a =>
      cases a <;>
        (simp only [Outcome.isMethod, Outcome.isOptimizedMethod,
          Outcome.isBaselineMethod, CompiledMethod.isOptimized,
          CompiledMethod.isBaseline]
         simp
         omega)

theorem countMethods_le_length (outs : List Outcome) :
    countMethods outs ≤ outs.length := by
  induction outs with
  | nil => simp [countMethods]
  | cons o rest ih =>
    simp only [countMethods, List.length_cons]
    split <;> omega

theorem runCompiles_length (calls : List (Externals × MethodInput)) (st : Stats) :
    (runCompiles calls st).2.length = calls.length := by
  induction calls generalizing st with
  | nil => rfl
  | cons c rest ih => simp [runCompiles, ih]

/-- Run-level statistics: starting from any counter values, a non-fatal
run adds the number of calls to `total`, the optimized-artifact count to
`optimized`, and the baseline-artifact count to `unoptimized`. -/
theorem runCompiles_stats (calls : List (Externals × MethodInput)) (st : Stats)
    (hnf : ∀ o ∈ (runCompiles calls st).2, o.isFatal = false) :
    (runCompiles calls st).1.total_compiled_methods_ =
      st.total_compiled_methods_ + calls.length ∧
    (runCompiles calls st).1.optimized_compiled_methods_ =
      st.optimized_compiled_methods_ +
        countOptimizedOuts (runCompiles calls st).2 ∧
    (runCompiles calls st).1.unoptimized_compiled_methods_ =
      st.unoptimized_compiled_methods_ +
        countBaselineOuts (runCompiles calls st).2 := by
  induction calls generalizing st with
  | nil =>
    simp [runCompiles, countOptimizedOuts, countBaselineOuts]
  | cons c rest ih =>
    simp only [runCompiles] at hnf ⊢
    have hnf0 : (Compile c.1 c.2 st).outcome.isFatal = false :=
      hnf _ (List.mem_cons_self _ _)
    have hnf' : ∀ o ∈ (runCompiles rest (Compile c.1 c.2 st).stats).2,
        o.isFatal = false := fun o ho => hnf o (List.mem_cons_of_mem _ ho)
    obtain ⟨ht, hd⟩ := compile_spec c.1 c.2 st
    obtain ⟨ho, hb⟩ := hd hnf0
    obtain ⟨iht, iho, ihb⟩ := ih (Compile c.1 c.2 st).stats hnf'
    refine ⟨?_, ?_, ?_⟩
    · rw [iht, ht]
      simp [List.length_cons]
      omega
    · rw [iho, ho]
      simp only [countOptimizedOuts]
      split <;> omega
    · rw [ihb, hb]
      simp only [countBaselineOuts]
      split <;> omega

/-- C1: for a method that passes the eligibility checks (supported
architecture, not pathological, graph builds, code generator exists),
`Compile` takes the optimized path — witnessed by the optimized counter
increment, the first statement of that branch — iff the optimization
policy is on, the method has no try/catch regions, and
`CanAllocateRegistersFor` holds on the built graph; in every other case
excluding the testing-only fatal valve it takes the baseline path. -/
theorem C1_path_decision (env : Externals) (m : MethodInput) (st : Stats)
    (g : HGraph) (cg : CGState)
    (hsup : IsInstructionSetSupported env.kArm32QuickCodeUseSoftFloat
      (effectiveInstructionSet env) = true)
    (hpath : env.isPathological = false)
    (hg : env.buildGraph = some g)
    (hcg : env.createCodegen g (effectiveInstructionSet env) = some cg) :
    ((Compile env m st).stats.optimized_compiled_methods_ =
        st.optimized_compiled_methods_ + 1 ↔
      (env.run_optimizations_ && CanOptimize m.code_item &&
        env.canAllocateRegistersFor g (effectiveInstructionSet env)) = true) ∧
    ((env.run_optimizations_ && CanOptimize m.code_item &&
        env.canAllocateRegistersFor g (effectiveInstructionSet env)) = false →
      (strContains m.symbol regMarker &&
        env.raSupports (effectiveInstructionSet env)) = false →
      (Compile env m st).stats.unoptimized_compiled_methods_ =
        st.unoptimized_compiled_methods_ + 1) := by
  by_cases hc : optCond env m g = true
  · have h1 : (Compile env m st).stats.optimized_compiled_methods_ =
        st.optimized_compiled_methods_ + 1 := by
      rw [compile_eq_opt env m st g cg hsup hpath hg hcg hc, optimizedBranch_stats]
    refine ⟨⟨fun _ => hc, fun _ => h1⟩, fun hf _ => ?_⟩
    have hf' : optCond env m g = false := hf
    rw [hf'] at hc
    simp at hc
  · have hc' : optCond env m g = false := by
      cases h : optCond env m g
      · rfl
      · exact absurd h hc
    constructor
    · constructor
      · intro h1
        by_cases hv : valveCond env m = true
        · rw [compile_eq_valve env m st g cg hsup hpath hg hcg hc' hv] at h1
          simp at h1
        · have hv' : valveCond env m = false := by
            cases h : valveCond env m
            · rfl
            · exact absurd h hv
          rw [compile_eq_baseline env m st g cg hsup hpath hg hcg hc' hv'] at h1
          simp at h1
      · intro hcc
        have hcc' : optCond env m g = true := hcc
        rw [hcc'] at hc'
        simp at hc'
    · intro _ hvf
      have hv' : valveCond env m = false := hvf
      rw [compile_eq_baseline env m st g cg hsup hpath hg hcg hc' hv']

/-- C1 witness: on a concrete eligible, optimizable input the optimized
counter is incremented. -/
theorem C1_witness_thm :
    (Compile envW mW initialStats).stats.optimized_compiled_methods_ =
      initialStats.optimized_compiled_methods_ + 1 :=
  (C1_path_decision envW mW initialStats ⟨0⟩ ⟨0⟩ (by decide) (by decide)
      (by decide) (by decide)).1.mpr (by decide)

/-- C2 (amended): an unsupported architecture yields the sentinel, but
the total counter is incremented on every call (including ineligible
rejections) at entry; the optimized and unoptimized counters are
untouched on a sentinel return and incremented exactly once, per the
branch taken, on an artifact return. -/
theorem C2_amended_counters (env : Externals) (m : MethodInput) (st : Stats) :
    (IsInstructionSetSupported env.kArm32QuickCodeUseSoftFloat
        (effectiveInstructionSet env) = false →
      (Compile env m st).outcome = .noMethod) ∧
    (Compile env m st).stats.total_compiled_methods_ =
      st.total_compiled_methods_ + 1 ∧
    ((Compile env m st).outcome = .noMethod →
      (Compile env m st).stats.optimized_compiled_methods_ =
        st.optimized_compiled_methods_ ∧
      (Compile env m st).stats.unoptimized_compiled_methods_ =
        st.unoptimized_compiled_methods_) ∧
    (∀ a, (Compile env m st).outcome = .method a →
      (a.isOptimized = true →
        (Compile env m st).stats.optimized_compiled_methods_ =
          st.optimized_compiled_methods_ + 1 ∧
        (Compile env m st).stats.unoptimized_compiled_methods_ =
          st.unoptimized_compiled_methods_) ∧
      (a.isBaseline = true →
        (Compile env m st).stats.unoptimized_compiled_methods_ =
          st.unoptimized_compiled_methods_ + 1 ∧
        (Compile env m st).stats.optimized_compiled_methods_ =
          st.optimized_compiled_methods_)) := by
  refine ⟨fun hsup => ?_, (compile_spec env m st).1, fun hnm => ?_, fun a ha => ?_⟩
  · rw [compile_eq_unsupported env m st hsup]
  · have hnf : (Compile env m st).outcome.isFatal = false := by
      rw [hnm]; rfl
    obtain ⟨ho, hb⟩ := (compile_spec env m st).2 hnf
    rw [hnm] at ho hb
    simp [Outcome.isOptimizedMethod, Outcome.isBaselineMethod] at ho hb
    exact ⟨ho, hb⟩
  · have hnf : (Compile env m st).outcome.isFatal = false := by
      rw [ha]; rfl
    obtain ⟨ho, hb⟩ := (compile_spec env m st).2 hnf
    rw [ha] at ho hb
    constructor
    · intro hopt
      have hbase : a.isBaseline = false := by
        have h2 := isOptimized_eq_not_isBaseline a
        rw [hopt] at h2
        cases h3 : a.isBaseline
        · rfl
        · rw [h3] at h2; simp at h2
      simp [Outcome.isOptimizedMethod, Outcome.isBaselineMethod, hopt, hbase] at ho hb
      exact ⟨ho, hb⟩
    · intro hbase
      have hopt : a.isOptimized = false := by
        have h2 := isOptimized_eq_not_isBaseline a
        rw [hbase] at h2
        exact h2
      simp [Outcome.isOptimizedMethod, Outcome.isBaselineMethod, hopt, hbase] at ho hb
      exact ⟨hb, ho⟩

/-- C2 counterexample: a call on an unsupported architecture does change
the counters — the total counter is incremented at entry. -/
theorem C2_counterexample : ¬ClaimC2Stated := by
  intro h
  have h2 := (h envMips mW initialStats (by decide)).2
  exact absurd h2 (by decide)

/-- C2 witness: a concrete unsupported-architecture call returns the
sentinel with the total counter at one. -/
theorem C2_witness_thm :
    (Compile envMips mW initialStats).outcome = Outcome.noMethod ∧
    (Compile envMips mW initialStats).stats.total_compiled_methods_ = 1 :=
  ⟨(C2_amended_counters envMips mW initialStats).1 (by decide),
   (C2_amended_counters envMips mW initialStats).2.1⟩

/-- C3 (amended): after any non-fatal run from fresh counters, `total`
equals the number of calls (attempts, not successes), `optimized` the
number of optimized-branch artifacts, `unoptimized` the number of
baseline artifacts; `optimized + unoptimized` equals the number of
successful compilations, which is at most `total`. -/
theorem C3_amended_invariant (calls : List (Externals × MethodInput))
    (hnf : ∀ o ∈ (runCompiles calls initialStats).2, o.isFatal = false) :
    (runCompiles calls initialStats).1.total_compiled_methods_ = calls.length ∧
    (runCompiles calls initialStats).1.optimized_compiled_methods_ =
      countOptimizedOuts (runCompiles calls initialStats).2 ∧
    (runCompiles calls initialStats).1.unoptimized_compiled_methods_ =
      countMethods (runCompiles calls initialStats).2 -
        countOptimizedOuts (runCompiles calls initialStats).2 ∧
    (runCompiles calls initialStats).1.optimized_compiled_methods_ +
      (runCompiles calls initialStats).1.unoptimized_compiled_methods_ =
      countMethods (runCompiles calls initialStats).2 ∧
    countMethods (runCompiles calls initialStats).2 ≤ calls.length := by
  obtain ⟨ht, ho, hb⟩ := runCompiles_stats calls initialStats hnf
  have hc := countMethods_eq (runCompiles calls initialStats).2
  have hl := runCompiles_length calls initialStats
  have hle := countMethods_le_length (runCompiles calls initialStats).2
  have h0t : initialStats.total_compiled_methods_ = 0 := rfl
  have h0o : initialStats.optimized_compiled_methods_ = 0 := rfl
  have h0b : initialStats.unoptimized_compiled_methods_ = 0 := rfl
  refine ⟨by omega, by omega, by omega, by omega, by omega⟩

/-- C3 counterexample: one ineligible call leaves `total` at one while
there are zero successful compilations. -/
theorem C3_counterexample : ¬ClaimC3Stated := by
  intro h
  have h2 := (h [(envMips, mW)] (by decide)).1
  exact absurd h2 (by decide)

/-- C3 witness: a two-call run (one optimized success, one ineligible)
has `total` two and `optimized` matching the optimized-artifact count. -/
theorem C3_witness_thm :
    (runCompiles [(envW, mW), (envMips, mW)] initialStats).1.total_compiled_methods_ = 2 ∧
    (runCompiles [(envW, mW), (envMips, mW)] initialStats).1.optimized_compiled_methods_ =
      countOptimizedOuts (runCompiles [(envW, mW), (envMips, mW)] initialStats).2 :=
  ⟨(C3_amended_invariant [(envW, mW), (envMips, mW)] (by decide)).1,
   (C3_amended_invariant [(envW, mW), (envMips, mW)] (by decide)).2.1⟩

/-- C4: a method with at least one try/catch region that compiles to an
artifact always gets the baseline layout, whatever the policy flags. -/
theorem C4_tries_baseline (env : Externals) (m : MethodInput) (st : Stats)
    (a : CompiledMethod)
    (htries : 0 < m.code_item.tries_size_)
    (h : (Compile env m st).outcome = .method a) :
    a.isBaseline = true := by
  unfold Compile at h
  dsimp only at h
  split at h
  · simp at h
  · split at h
    · simp at h
    · split at h
      · split at h
        · simp at h
        · simp at h
      · split at h
        · split at h
          · simp at h
          · simp at h
        · split at h
          · rename_i hcond
            have h2 : CanOptimize m.code_item = true := by
              simp [Bool.and_eq_true] at hcond
              exact hcond.1.2
            simp [CanOptimize] at h2
            omega
          · split at h
            · simp at h
            · unfold baselineBranch at h
              dsimp only at h
              simp at h
              subst h
              rfl

/-- C4 witness: a concrete method with one try region compiles to the
baseline artifact. -/
theorem C4_witness_thm :
    (CompiledMethod.baseline .kX86 [2] 16 1 0 false [3] [5] [6]).isBaseline = true :=
  C4_tries_baseline envW mTries initialStats
    (CompiledMethod.baseline .kX86 [2] 16 1 0 false [3] [5] [6])
    (by decide) (by decide)

/-- C5 (amended): for a method that reaches the path decision, the fatal
valve fires iff the optimized-path condition fails, the method carries
the register-allocation marker, and `RegisterAllocator::Supports` holds
for the instruction set — the allocability predicate being false is
neither necessary nor sufficient. -/
theorem C5_amended_valve (env : Externals) (m : MethodInput) (st : Stats)
    (g : HGraph) (cg : CGState)
    (hsup : IsInstructionSetSupported env.kArm32QuickCodeUseSoftFloat
      (effectiveInstructionSet env) = true)
    (hpath : env.isPathological = false)
    (hg : env.buildGraph = some g)
    (hcg : env.createCodegen g (effectiveInstructionSet env) = some cg) :
    ((Compile env m st).outcome = .fatal .registerAllocationValve ↔
      ((env.run_optimizations_ && CanOptimize m.code_item &&
          env.canAllocateRegistersFor g (effectiveInstructionSet env)) = false ∧
        strContains m.symbol regMarker = true ∧
        env.raSupports (effectiveInstructionSet env) = true)) := by
  by_cases hc : optCond env m g = true
  · rw [compile_eq_opt env m st g cg hsup hpath hg hcg hc]
    constructor
    · intro hcontra
      exact absurd hcontra (optimizedBranch_not_valve env _ g cg _)
    · rintro ⟨hf, -, -⟩
      have hf' : optCond env m g = false := hf
      rw [hf'] at hc
      simp at hc
  · have hc' : optCond env m g = false := by
      cases h : optCond env m g
      · rfl
      · exact absurd h hc
    by_cases hv : valveCond env m = true
    · rw [compile_eq_valve env m st g cg hsup hpath hg hcg hc' hv]
      simp only [valveCond, Bool.and_eq_true] at hv
      exact ⟨fun _ => ⟨hc', hv.1, hv.2⟩, fun _ => rfl⟩
    · have hv' : valveCond env m = false := by
        cases h : valveCond env m
        · rfl
        · exact absurd h hv
      rw [compile_eq_baseline env m st g cg hsup hpath hg hcg hc' hv']
      constructor
      · intro hcontra
        simp at hcontra
      · rintro ⟨-, h1, h2⟩
        simp only [valveCond, Bool.and_eq_true] at hv'
        rw [h1, h2] at hv'
        simp at hv'

/-- C5 counterexample: a reg-tagged method whose allocability predicate
returns true still aborts when the optimization policy is disabled. -/
theorem C5_counterexample : ¬ClaimC5Stated := by
  intro h
  have h2 := (h envNoOpt mReg initialStats ⟨0⟩ ⟨0⟩ (by decide) (by decide)
      (by decide) (by decide)).mp (by decide)
  exact absurd h2.2 (by decide)

/-- C5 witness: the valve fires on a concrete tagged method with the
policy disabled. -/
theorem C5_witness_thm :
    (Compile envNoOpt mReg initialStats).outcome =
      Outcome.fatal FatalKind.registerAllocationValve :=
  (C5_amended_valve envNoOpt mReg initialStats ⟨0⟩ ⟨0⟩ (by decide) (by decide)
      (by decide) (by decide)).mpr ⟨by decide, by decide, by decide⟩

/-- C6 (amended): for methods that do not carry the must-compile marker,
every ineligible condition — unsupported architecture, pathological
shape, graph-build failure, missing code generator — is reported by the
null sentinel, never fatally; marker-tagged methods abort on build or
code-generator failure instead. -/
theorem C6_amended_ineligible (env : Externals) (m : MethodInput) (st : Stats)
    (huntag : strContains m.symbol optMarker = false)
    (hinelig : IsInstructionSetSupported env.kArm32QuickCodeUseSoftFloat
        (effectiveInstructionSet env) = false ∨
      env.isPathological = true ∨
      env.buildGraph = none ∨
      (∃ g, env.buildGraph = some g ∧
        env.createCodegen g (effectiveInstructionSet env) = none)) :
    (Compile env m st).outcome = .noMethod := by
  by_cases hsup : IsInstructionSetSupported env.kArm32QuickCodeUseSoftFloat
      (effectiveInstructionSet env) = false
  · rw [compile_eq_unsupported env m st hsup]
  · have hsup' : IsInstructionSetSupported env.kArm32QuickCodeUseSoftFloat
        (effectiveInstructionSet env) = true := by
      cases h : IsInstructionSetSupported env.kArm32QuickCodeUseSoftFloat
          (effectiveInstructionSet env)
      · exact absurd h hsup
      · rfl
    by_cases hpath : env.isPathological = true
    · rw [compile_eq_pathological env m st hsup' hpath]
    · have hpath' : env.isPathological = false := by
        cases h : env.isPathological
        · rfl
        · exact absurd h hpath
      rcases hinelig with h | h | h | ⟨g, hg, hcg⟩
      · exact absurd h hsup
      · exact absurd h hpath
      · rw [compile_eq_buildfail env m st hsup' hpath' h]
        simp [huntag]
      · rw [compile_eq_nocodegen env m st g hsup' hpath' hg hcg]
        simp [huntag]

/-- C6 counterexample: a method tagged with the must-compile marker
aborts fatally, not with the sentinel, when its graph build fails. -/
theorem C6_counterexample : ¬ClaimC6Stated := by
  intro h
  have h2 := h envNoGraph mOpt initialStats (Or.inr (Or.inr (Or.inl rfl)))
  exact absurd h2 (by decide)

/-- C6 witness: a concrete untagged method with a failed graph build
gets the sentinel. -/
theorem C6_witness_thm :
    (Compile envNoGraph mW initialStats).outcome = Outcome.noMethod :=
  C6_amended_ineligible envNoGraph mW initialStats (by decide)
    (Or.inr (Or.inr (Or.inl (by decide))))

/-- C7: the baseline branch with its coverage-only side computation
produces exactly the artifact a baseline compilation without the side
computation produces — same code bytes, metadata tables, frame size and
spill masks. -/
theorem C7_coverage_no_influence (env : Externals) (m : MethodInput)
    (g : HGraph) (cg : CGState) (i : InstructionSet) :
    baselineBranch env m g cg i = baselineBranchNoCoverage env g cg i := rfl

/-- C8: on the optimized path with all pass checks succeeding, the pass
events of the compilation are exactly the canonical sequence — each of
the seven passes, in the fixed order, runs once with its `Run` followed
by its own `Check` before the next pass starts. -/
theorem C8_optimization_sequence (env : Externals) (m : MethodInput) (st : Stats)
    (g : HGraph) (cg : CGState)
    (hsup : IsInstructionSetSupported env.kArm32QuickCodeUseSoftFloat
      (effectiveInstructionSet env) = true)
    (hpath : env.isPathological = false)
    (hg : env.buildGraph = some g)
    (hcg : env.createCodegen g (effectiveInstructionSet env) = some cg)
    (hc : optCond env m g = true)
    (hchk : ∀ p g', env.passCheck p g' = true) :
    (Compile env m st).passEvents = optSequenceTrace := by
  rw [compile_eq_opt env m st g cg hsup hpath hg hcg hc]
  unfold optimizedBranch
  dsimp only
  rw [runOptimizations_of_checks env _ hchk]

/-- C8 witness: the trace on a concrete optimized compilation. -/
theorem C8_witness_thm :
    (Compile envW mW initialStats).passEvents = optSequenceTrace :=
  C8_optimization_sequence envW mW initialStats ⟨0⟩ ⟨0⟩ (by decide) (by decide)
    (by decide) (by decide) (by decide) (fun _ _ => rfl)

/-- C9 (amended): on the optimized path the mapping table is built on
every compilation — only the source-map argument passed to it is gated
on debug-symbol inclusion — and the stack-map table is always built. -/
theorem C9_amended_tables (env : Externals) (m : MethodInput) (st : Stats)
    (g : HGraph) (cg : CGState)
    (hsup : IsInstructionSetSupported env.kArm32QuickCodeUseSoftFloat
      (effectiveInstructionSet env) = true)
    (hpath : env.isPathological = false)
    (hg : env.buildGraph = some g)
    (hcg : env.createCodegen g (effectiveInstructionSet env) = some cg)
    (hc : optCond env m g = true)
    (hchk : ∀ p g', env.passCheck p g' = true) :
    (Compile env m st).tableEvents =
      [.mappingTable env.includeDebugSymbols, .stackMaps] := by
  rw [compile_eq_opt env m st g cg hsup hpath hg hcg hc]
  unfold optimizedBranch
  dsimp only
  rw [runOptimizations_of_checks env _ hchk]

/-- C9 counterexample: an optimized compilation without debug symbols
still builds the mapping table. -/
theorem C9_counterexample : ¬ClaimC9Stated := by
  intro h
  have h2 := (h envW mW initialStats (by decide)).mp ⟨false, by decide⟩
  exact absurd h2 (by decide)

/-- C9 witness: the concrete table-build calls of an optimized
compilation without debug symbols. -/
theorem C9_witness_thm :
    (Compile envW mW initialStats).tableEvents =
      [BuildEvent.mappingTable false, BuildEvent.stackMaps] :=
  C9_amended_tables envW mW initialStats ⟨0⟩ ⟨0⟩ (by decide) (by decide)
    (by decide) (by decide) (by decide) (fun _ _ => rfl)

/-- C10: every returned artifact, on either path, carries a zero
floating-point spill mask. -/
theorem C10_fp_spill_mask (env : Externals) (m : MethodInput) (st : Stats)
    (a : CompiledMethod) (h : (Compile env m st).outcome = .method a) :
    a.fpSpillMask = 0 := by
  unfold Compile at h
  dsimp only at h
  split at h
  · simp at h
  · split at h
    · simp at h
    · split at h
      · split at h
        · simp at h
        · simp at h
      · split at h
        · split at h
          · simp at h
          · simp at h
        · split at h
          · unfold optimizedBranch at h
            dsimp only at h
            split at h
            · simp at h
            · simp at h
              subst h
              rfl
          · split at h
            · simp at h
            · unfold baselineBranch at h
              dsimp only at h
              simp at h
              subst h
              rfl

/-- C10 witness: a concrete optimized compilation's artifact has a zero
floating-point spill mask. -/
theorem C10_witness_thm :
    (CompiledMethod.optimized .kX86 [1] 16 1 0 [3] [4]).fpSpillMask = 0 :=
  C10_fp_spill_mask envW mW initialStats
    (CompiledMethod.optimized .kX86 [1] 16 1 0 [3] [4]) (by decide)

end art
